import Mathlib

/-!
Verification of the operation driver state machine of
`src/yb/tablet/operations/operation_driver.h` (YugaByte tablet layer).

Only the header is available; it gives the enums `ReplicationState`
(lines 214-229) and `PrepareState` (lines 231-234), the inline
`is_leader_side` (lines 172-176), and the declarations plus doc comments of
`Init`, `GetOpId`, `ExecuteAsync`, `Abort`, `ReplicationFinished`,
`PrepareAndStart`, `PrepareAndStartTask`, `SetReplicationFailed`,
`HandleFailure`, `ApplyAsync`, `ApplyTask`, `Finalize` and the fields
`op_id_copy_`, `lock_`, `opid_lock_`, `replication_state_`,
`prepare_state_`, `operation_status_`. The bodies of those methods live in
`operation_driver.cc`, which is not part of the sources; they are modelled
here from the design specification, as noted on each definition.

Each driver method runs its state transition inside a critical section of
the state spinlock `lock_`, so a method's whole effect on the guarded
fields is atomic; the shallow embedding therefore treats each method as a
single atomic step on a `DriverState` value, and an interleaving of
concurrent callers as a sequence of such steps.
-/

namespace YB.Tablet

/-- Enum `ReplicationState` of `OperationDriver`, operation_driver.h
lines 214-229. -/
inductive ReplicationState : Type
  /-- The operation has not yet been sent to consensus for replication. -/
  | NOT_REPLICATING
  /-- Replication has been triggered (leader triggered it, or a follower
  started the operation in response to a leader's call). -/
  | REPLICATING
  /-- Replication has failed, and we are certain that no other may have
  received the operation (we failed before even sending the request off of
  our node). -/
  | REPLICATION_FAILED
  /-- Replication has succeeded. -/
  | REPLICATED
deriving DecidableEq, Repr

/-- Enum `PrepareState` of `OperationDriver`, operation_driver.h lines
231-234. -/
inductive PrepareState : Type
  | NOT_PREPARED
  | PREPARED
deriving DecidableEq, Repr

/-- Modelled from the spec: the ordered identifier (`consensus::OpId`,
"e.g., term+index") assigned by the Replication Engine. -/
structure OpId : Type where
  term : Nat
  index : Nat
deriving DecidableEq, Repr

/-- Modelled from the spec: a `Status` result is either OK or an error
(carrying an opaque error code). -/
inductive Status : Type
  | ok
  | error (code : Nat)
deriving DecidableEq, Repr

/-- Whether a status is OK. -/
def Status.isOk : Status → Bool
  | .ok => true
  | .error _ => false

/-- The driver fields relevant to the claims, from operation_driver.h lines
261-303: `replication_state_`, `prepare_state_`, `operation_status_` (the
terminal status, `Status.ok` while no failure has been recorded), the
driver's copy `op_id_copy_` of the OpId (`none` is the uninitialized /
"unassigned" marker of lines 130-133 and 273-277), and the internal
"apply dispatched" flag of the spec's check-and-act mechanism (spec 4.4).
In the source, `replication_state_`, `prepare_state_`, `operation_status_`
and the flag are guarded by the state lock `lock_` (line 271), while
`op_id_copy_` is guarded by the dedicated `opid_lock_` (lines 279-283). -/
structure DriverState : Type where
  replication_state : ReplicationState
  prepare_state : PrepareState
  operation_status : Status
  op_id_copy : Option OpId
  apply_dispatched : Bool
deriving DecidableEq, Repr

/-- Modelled from the spec: `consensus::DriverType` (declared in
consensus.h, not among the sources) — whether the driver was instantiated
on the leader or on a replica/follower. -/
inductive DriverType : Type
  | LEADER
  | REPLICA
deriving DecidableEq, Repr

/-- Modelled from the spec: `init(operation, origin)` "sets
`replication_state = REPLICATING` if origin is 'already replicating'
(follower), else `NOT_REPLICATING` (leader)" (spec 4.1); initially
NOT_PREPARED, no failure recorded, no op_id assigned (header lines 65-68,
130-133), apply not yet dispatched. The body of `Init` (header line 128)
is not among the sources. -/
def Init (origin : DriverType) : DriverState where
  replication_state :=
    match origin with
    | .REPLICA => .REPLICATING
    | .LEADER => .NOT_REPLICATING
  prepare_state := .NOT_PREPARED
  operation_status := .ok
  op_id_copy := none
  apply_dispatched := false

/-- Modelled from the spec: the single atomic check-and-act performed
under the state lock at every apply trigger site (spec 4.4): "check
`prepare_state == PREPARED && replication_state == REPLICATED`; if true,
flip an internal 'apply dispatched' flag and submit; if the flag is
already set, do nothing". Returns the new state and whether this call
submitted the apply task to the apply pool. The body of `ApplyAsync`
(header line 242) is not among the sources. -/
def ApplyAsync (s : DriverState) : DriverState × Bool :=
  if s.prepare_state = .PREPARED ∧ s.replication_state = .REPLICATED ∧
      s.apply_dispatched = false then
    ({ s with apply_dispatched := true }, true)
  else
    (s, false)

/-- Modelled from the spec: the failure taxonomy of spec 7 — submission
failure, prepare/start failure, (asynchronous) replication failure, and
apply/write-log failure. Spec 9 notes that the recoverable/fatal
classification is delegated to the reported failure kind. -/
inductive FailureKind : Type
  | submission
  | prepareStart
  | replication
  | applyOrLog
deriving DecidableEq, Repr

/-- The two terminal failure routes of spec 7: surface a failed result
through the Operation's normal result callback, or immediate
non-recoverable termination of the process (FATAL). -/
inductive FailureAction : Type
  | callbackFailedResult
  | fatalTermination
deriving DecidableEq, Repr

/-- Modelled from the spec: `handle_failure` — "In some cases, this will
end the operation and call its callback. In others, where we can't
recover, this will FATAL" (header lines 192-195). The routing follows the
taxonomy of spec 7: submission failures and prepare/start failures are
recoverable and surface as a failed result; a replication failure
(asynchronous, ambiguous) and any apply/log failure after successful
replication escalate to an abrupt, unrecoverable process stop. The body of
`HandleFailure` is not among the sources. -/
def HandleFailure (k : FailureKind) : FailureAction :=
  match k with
  | .submission => .callbackFailedResult
  | .prepareStart => .callbackFailedResult
  | .replication => .fatalTermination
  | .applyOrLog => .fatalTermination

/-- The calls a driver step makes into its Operation collaborator
(spec 6: `prepare() -> Result`, `start()`, `apply()`). -/
inductive OpCall : Type
  | prepare
  | start
  | apply
deriving DecidableEq, Repr

/-- Modelled from the spec: the Operation collaborator, reduced to the
observable needed here — the result its `prepare()` step returns
(`start()` returns no result, spec 6). -/
structure Operation : Type where
  prepareResult : Status
deriving DecidableEq, Repr

/-- Outcome of a prepare-pool step: the driver state, whether this call
submitted the apply task, the returned status, and the calls made into the
Operation. -/
structure PrepareOutcome : Type where
  state : DriverState
  applySubmitted : Bool
  status : Status
  calls : List OpCall
deriving DecidableEq, Repr

/-- Modelled from the spec: `prepare_and_start()` "Calls
Operation.prepare() then Operation.start(). On the leader path it
deliberately stops short of submitting to replication — that is the
Dispatcher's job, to allow batching. Sets `prepare_state = PREPARED`. If,
under the state lock, `replication_state` is already REPLICATED (the
completion race was won by the replication side), it triggers apply
immediately" (spec 4.1; header lines 178-181). On a prepare failure the
error status is returned and the state is left untouched. The body of
`PrepareAndStart` is not among the sources. -/
def PrepareAndStart (s : DriverState) (op : Operation) : PrepareOutcome :=
  if op.prepareResult.isOk then
    let r := ApplyAsync { s with prepare_state := .PREPARED }
    { state := r.1, applySubmitted := r.2, status := .ok,
      calls := [.prepare, .start] }
  else
    { state := s, applySubmitted := false, status := op.prepareResult,
      calls := [.prepare] }

/-- Modelled from the spec: `prepare_and_start_task()` "wraps the above;
any failure routes to failure handling" (spec 4.1; header lines 183-187),
recording the terminal status (spec 3: `terminal_status` is set on any
failure); a prepare/start failure is recoverable (spec 7). The body of
`PrepareAndStartTask` is not among the sources. -/
def PrepareAndStartTask (s : DriverState) (op : Operation) :
    PrepareOutcome × Option FailureAction :=
  let r := PrepareAndStart s op
  if r.status.isOk then
    (r, none)
  else
    ({ r with state := { r.state with operation_status := r.status } },
      some (HandleFailure .prepareStart))

/-- Outcome of a replication-side step: the driver state, whether this
call submitted the apply task, and the failure routing it performed, if
any. -/
structure ReplOutcome : Type where
  state : DriverState
  applySubmitted : Bool
  action : Option FailureAction
deriving DecidableEq, Repr

/-- Modelled from the spec: `replication_finished(status)` — the callback
from the Replication Engine reporting completion of the round this driver
is replicating; it is delivered while the driver is REPLICATING, and on
any other state the callback does not apply and is modelled as a no-op.
"On error, sets `replication_state = REPLICATION_FAILED` and routes to
failure handling. On success, sets `replication_state = REPLICATED`,
records `op_id`; if `prepare_state == PREPARED`, triggers apply; otherwise
defers — the still-running `prepare_and_start` will trigger apply when it
finishes" (spec 4.1; header lines 146-152). The trigger is the atomic
check-and-act of spec 4.4, and the error route carries the asynchronous
replication-failure kind of spec 7. The body of `ReplicationFinished` is
not among the sources. -/
def ReplicationFinished (s : DriverState) (status : Status) (id : OpId) :
    ReplOutcome :=
  if s.replication_state = .REPLICATING then
    if status.isOk then
      let s1 := { s with replication_state := ReplicationState.REPLICATED,
                         op_id_copy := some id }
      if s1.prepare_state = .PREPARED then
        let r := ApplyAsync s1
        { state := r.1, applySubmitted := r.2, action := none }
      else
        { state := s1, applySubmitted := false, action := none }
    else
      { state := { s with replication_state := .REPLICATION_FAILED,
                          operation_status := status },
        applySubmitted := false, action := some (HandleFailure .replication) }
  else
    { state := s, applySubmitted := false, action := none }

/-- Modelled from the spec: `set_replication_failed(status)` — "used when
submission to replication fails synchronously (certain that no peer ever
saw the operation) — always locally recoverable" (spec 4.1; header lines
189-190). Submission happens before the round is enqueued, i.e. while the
driver is still NOT_REPLICATING; the failure is recorded, the state moves
to REPLICATION_FAILED, and the routing carries the synchronous
submission-failure kind of spec 7. The body of `SetReplicationFailed` is
not among the sources. -/
def SetReplicationFailed (s : DriverState) (st : Status) : ReplOutcome :=
  if s.replication_state = .NOT_REPLICATING then
    { state := { s with replication_state := .REPLICATION_FAILED,
                        operation_status := st },
      applySubmitted := false, action := some (HandleFailure .submission) }
  else
    { state := s, applySubmitted := false, action := none }

/-- Modelled from the spec: the `on_round_appended` callback
(`HandleConsensusAppend`, header line 170) — fires once the coalesced
round is durably enqueued in the replication pipeline, "transitioning
`replication_state` from NOT_REPLICATING to REPLICATING" (spec 4.2). The
body is not among the sources. -/
def HandleConsensusAppend (s : DriverState) : DriverState :=
  if s.replication_state = .NOT_REPLICATING then
    { s with replication_state := .REPLICATING }
  else
    s

/-- Modelled from the spec: `abort(status)` — "best-effort; records the
requested failure status if no terminal status exists yet; cannot
interrupt a stage already executing on another thread — it only takes
effect at the next checkpoint that stage observes" (spec 4.1; header lines
140-144). It only records the status: no other field changes. The body of
`Abort` is not among the sources. -/
def Abort (s : DriverState) (st : Status) : DriverState :=
  if s.operation_status = .ok then { s with operation_status := st } else s

/-- Modelled from the spec: `apply_task()` followed by `finalize()` —
apply the operation and hand the commit record to the Write Log; once
durably appended, finalize makes the changes visible, invokes the client
result callback and deregisters (spec 4.3). If `Operation.apply()` or the
write-log append fails after successful replication, the failure is
always unrecoverable (spec 7, apply/log failure kind) and the routing is
returned; `none` means the operation finalized normally. The bodies of
`ApplyTask` and `Finalize` (header lines 246-250) are not among the
sources. -/
def ApplyTask (s : DriverState) (applyStatus logStatus : Status) :
    DriverState × Option FailureAction :=
  if applyStatus.isOk && logStatus.isOk then
    (s, none)
  else
    (s, some (HandleFailure .applyOrLog))

/-- Accessor `get_op_id()`: returns the driver's copy of the OpId "or an
uninitialized OpId if none has been assigned" (header lines 130-133),
reading only `op_id_copy_` under the dedicated `opid_lock_` (header lines
279-283) — no state-lock field is consulted. The body of `GetOpId` is not
among the sources; modelled from the spec. -/
def GetOpId (s : DriverState) : Option OpId := s.op_id_copy

/-- Accessor `is_leader_side()` from operation_driver.h lines 172-176
(inline in the header): under the state lock, `return replication_state_
== ReplicationState::NOT_REPLICATING;`. -/
def is_leader_side (s : DriverState) : Bool :=
  decide (s.replication_state = ReplicationState.NOT_REPLICATING)

/-- The atomic driver steps whose interleavings the claims quantify over:
the prepare-pool task, the dispatcher's consensus-append callback, the
Replication Engine's completion callback, a synchronous submission
failure, an abort request, and the apply-pool task. -/
inductive Event : Type
  | prepareTask (op : Operation)
  | consensusAppend
  | replFinished (st : Status) (id : OpId)
  | submitFailed (st : Status)
  | abortReq (st : Status)
  | applyStep (applySt logSt : Status)
deriving DecidableEq, Repr

/-- One atomic step of the driver: the successor state and whether the
step submitted the apply task. -/
def step (s : DriverState) (e : Event) : DriverState × Bool :=
  match e with
  | .prepareTask op =>
      let r := PrepareAndStartTask s op
      (r.1.state, r.1.applySubmitted)
  | .consensusAppend => (HandleConsensusAppend s, false)
  | .replFinished st id =>
      let r := ReplicationFinished s st id
      (r.state, r.applySubmitted)
  | .submitFailed st => ((SetReplicationFailed s st).state, false)
  | .abortReq st => (Abort s st, false)
  | .applyStep a l => ((ApplyTask s a l).1, false)

/-- Run a sequence of atomic driver steps. -/
def run (s : DriverState) : List Event → DriverState
  | [] => s
  | e :: es => run (step s e).1 es

/-- Number of times the apply task is submitted along a run. -/
def dispatchCount (s : DriverState) : List Event → Nat
  | [] => 0
  | e :: es =>
      (if (step s e).2 then 1 else 0) + dispatchCount (step s e).1 es

/-- Whether replication state `b` is the same as or a later stage than
`a` along NOT_REPLICATING → REPLICATING → (REPLICATED or
REPLICATION_FAILED). -/
def ReplicationState.le (a b : ReplicationState) : Bool :=
  match a, b with
  | .NOT_REPLICATING, _ => true
  | .REPLICATING, .NOT_REPLICATING => false
  | .REPLICATING, _ => true
  | .REPLICATION_FAILED, .REPLICATION_FAILED => true
  | .REPLICATION_FAILED, _ => false
  | .REPLICATED, .REPLICATED => true
  | .REPLICATED, _ => false

/-! ### Helper lemmas on single steps and runs -/

/-- Reflexivity of the replication-state stage order. -/
theorem ReplicationState.le_refl (a : ReplicationState) : le a a = true := by
  cases a <;> rfl

/-- Transitivity of the replication-state stage order. -/
theorem ReplicationState.le_trans (a b c : ReplicationState)
    (h1 : le a b = true) (h2 : le b c = true) : le a c = true := by
  cases a <;> cases b <;> cases c <;> simp_all [le]

/-- REPLICATION_FAILED is terminal in the stage order. -/
theorem ReplicationState.le_of_failed (b : ReplicationState)
    (h : le .REPLICATION_FAILED b = true) : b = .REPLICATION_FAILED := by
  cases b <;> simp_all [le]

/-- Nothing later than NOT_REPLICATING ever returns to NOT_REPLICATING. -/
theorem ReplicationState.le_of_ne_not_replicating (a b : ReplicationState)
    (ha : a ≠ .NOT_REPLICATING) (h : le a b = true) :
    b ≠ .NOT_REPLICATING := by
  cases a <;> cases b <;> simp_all [le]

/-- A step's successor flag: the apply-dispatched flag after a step is the
old flag or-ed with whether the step submitted apply; in particular the
flag never resets and is set exactly by a dispatching step. -/
theorem step_flag (s : DriverState) (e : Event) :
    (step s e).1.apply_dispatched = (s.apply_dispatched || (step s e).2) := by
  cases e <;>
    simp only [step, PrepareAndStartTask, PrepareAndStart, ApplyAsync,
      ReplicationFinished, SetReplicationFailed, HandleConsensusAppend,
      Abort, ApplyTask] <;>
    repeat' (first | rfl | split | simp_all)

/-- A step submits apply only from an unset flag, and only into the
REPLICATED stage. -/
theorem step_dispatch (s : DriverState) (e : Event)
    (h : (step s e).2 = true) :
    s.apply_dispatched = false ∧
      (step s e).1.replication_state = .REPLICATED := by
  cases e <;>
    simp only [step, PrepareAndStartTask, PrepareAndStart, ApplyAsync,
      ReplicationFinished, SetReplicationFailed, HandleConsensusAppend,
      Abort, ApplyTask] at h ⊢ <;>
    repeat' (first | rfl | split at h | simp_all)

/-- Every step advances `replication_state` along the stage order. -/
theorem step_mono (s : DriverState) (e : Event) :
    ReplicationState.le s.replication_state
      (step s e).1.replication_state = true := by
  cases e <;>
    simp only [step, PrepareAndStartTask, PrepareAndStart, ApplyAsync,
      ReplicationFinished, SetReplicationFailed, HandleConsensusAppend,
      Abort, ApplyTask] <;>
    repeat' (first | apply ReplicationState.le_refl | decide | split |
      simp_all)

/-- A whole run advances `replication_state` along the stage order. -/
theorem run_mono (evs : List Event) (s : DriverState) :
    ReplicationState.le s.replication_state
      (run s evs).replication_state = true := by
  induction evs generalizing s with
  | nil => exact ReplicationState.le_refl _
  | cons e es ih =>
      exact ReplicationState.le_trans _ _ _ (step_mono s e) (ih (step s e).1)

/-- Splitting a run at a step boundary. -/
theorem run_append (evs evs' : List Event) (s : DriverState) :
    run s (evs ++ evs') = run (run s evs) evs' := by
  induction evs generalizing s with
  | nil => rfl
  | cons e es ih => simp [run, ih]

/-- Once the apply-dispatched flag is set, no later step submits apply
again. -/
theorem dispatchCount_eq_zero_of_flag (evs : List Event) (s : DriverState)
    (h : s.apply_dispatched = true) : dispatchCount s evs = 0 := by
  induction evs generalizing s with
  | nil => rfl
  | cons e es ih =>
      have hd : (step s e).2 = false := by
        by_contra hb
        have := (step_dispatch s e (by simpa using hb)).1
        rw [h] at this
        exact Bool.noConfusion this
      have hflag := step_flag s e
      rw [h, hd] at hflag
      simp only [dispatchCount, hd, if_neg Bool.false_ne_true]
      simpa using ih (step s e).1 (by simpa using hflag)

/-- Along any run, apply is submitted at most once. -/
theorem dispatchCount_le_one (evs : List Event) (s : DriverState) :
    dispatchCount s evs ≤ 1 := by
  induction evs generalizing s with
  | nil => exact Nat.zero_le 1
  | cons e es ih =>
      by_cases hd : (step s e).2 = true
      · have hflag := step_flag s e
        rw [hd, Bool.or_true] at hflag
        simp [dispatchCount, hd,
          dispatchCount_eq_zero_of_flag es (step s e).1 hflag]
      · simp only [dispatchCount, if_neg hd, Nat.zero_add]
        exact ih (step s e).1

/-- From the REPLICATION_FAILED stage, apply is never submitted. -/
theorem dispatchCount_eq_zero_of_failed (evs : List Event) (s : DriverState)
    (h : s.replication_state = .REPLICATION_FAILED) :
    dispatchCount s evs = 0 := by
  induction evs generalizing s with
  | nil => rfl
  | cons e es ih =>
      have hnext : (step s e).1.replication_state = .REPLICATION_FAILED := by
        have := step_mono s e
        rw [h] at this
        exact ReplicationState.le_of_failed _ this
      have hd : (step s e).2 = false := by
        by_contra hb
        have := (step_dispatch s e (by simpa using hb)).2
        rw [hnext] at this
        exact ReplicationState.noConfusion this
      simp only [dispatchCount, hd, if_neg Bool.false_ne_true, Nat.zero_add]
      exact ih (step s e).1 hnext

/-- Only `ReplicationFinished` writes the OpId copy, and it does so while
moving to REPLICATED; every step preserves the property that an assigned
OpId implies the REPLICATED stage. -/
theorem step_opid_inv (s : DriverState) (e : Event)
    (h : s.op_id_copy ≠ none → s.replication_state = .REPLICATED) :
    (step s e).1.op_id_copy ≠ none →
      (step s e).1.replication_state = .REPLICATED := by
  cases e <;>
    simp only [step, PrepareAndStartTask, PrepareAndStart, ApplyAsync,
      ReplicationFinished, SetReplicationFailed, HandleConsensusAppend,
      Abort, ApplyTask] <;>
    repeat' (first | exact h | split | simp_all)

/-- From the REPLICATED stage, every step preserves the OpId copy and the
stage itself. -/
theorem step_opid_frozen (s : DriverState) (e : Event)
    (h : s.replication_state = .REPLICATED) :
    (step s e).1.op_id_copy = s.op_id_copy ∧
      (step s e).1.replication_state = .REPLICATED := by
  cases e <;>
    simp only [step, PrepareAndStartTask, PrepareAndStart, ApplyAsync,
      ReplicationFinished, SetReplicationFailed, HandleConsensusAppend,
      Abort, ApplyTask] <;>
    repeat' (first | exact ⟨rfl, h⟩ | split | simp_all)

/-- Once the OpId copy holds a value in the REPLICATED stage, a whole run
preserves both. -/
theorem run_opid_frozen (evs : List Event) (s : DriverState)
    (h : s.replication_state = .REPLICATED) :
    (run s evs).op_id_copy = s.op_id_copy ∧
      (run s evs).replication_state = .REPLICATED := by
  induction evs generalizing s with
  | nil => exact ⟨rfl, h⟩
  | cons e es ih =>
      obtain ⟨h1, h2⟩ := step_opid_frozen s e h
      obtain ⟨h3, h4⟩ := ih (step s e).1 h2
      exact ⟨h3.trans h1, h4⟩

/-- The assigned-OpId-implies-REPLICATED invariant holds along any run
from a state satisfying it. -/
theorem run_opid_inv (evs : List Event) (s : DriverState)
    (h : s.op_id_copy ≠ none → s.replication_state = .REPLICATED) :
    (run s evs).op_id_copy ≠ none →
      (run s evs).replication_state = .REPLICATED := by
  induction evs generalizing s with
  | nil => exact h
  | cons e es ih => exact ih (step s e).1 (step_opid_inv s e h)

/-! ### The claims -/

/-- C1: for every driver inside the completion race window (replication
triggered, prepare not yet finished, apply not yet dispatched), both
interleavings of the prepare-pool completion of `prepare_and_start` and
the Replication Engine's successful `replication_finished` callback
dispatch the apply step exactly once — each trigger site runs the atomic
check-and-act of `ApplyAsync` under the state lock — and along any
sequence of driver steps whatsoever the apply step is never dispatched
twice. -/
theorem C1_apply_dispatched_exactly_once (s : DriverState) (op : Operation)
    (id : OpId)
    (hr : s.replication_state = .REPLICATING)
    (hp : s.prepare_state = .NOT_PREPARED)
    (hd : s.apply_dispatched = false)
    (hok : op.prepareResult = .ok) :
    dispatchCount s [.prepareTask op, .replFinished .ok id] = 1 ∧
    dispatchCount s [.replFinished .ok id, .prepareTask op] = 1 ∧
    ∀ evs : List Event, dispatchCount s evs ≤ 1 := by
  refine ⟨?_, ?_, fun evs => dispatchCount_le_one evs s⟩ <;>
    simp [dispatchCount, step, PrepareAndStartTask, PrepareAndStart,
      ReplicationFinished, ApplyAsync, Status.isOk, hr, hp, hd, hok]

/-- Witness for C1 at a concrete follower-style state. -/
theorem C1_witness :
    dispatchCount ⟨.REPLICATING, .NOT_PREPARED, .ok, none, false⟩
        [.prepareTask ⟨.ok⟩, .replFinished .ok ⟨2, 5⟩] = 1 ∧
    dispatchCount ⟨.REPLICATING, .NOT_PREPARED, .ok, none, false⟩
        [.replFinished .ok ⟨2, 5⟩, .prepareTask ⟨.ok⟩] = 1 ∧
    ∀ evs : List Event,
      dispatchCount ⟨.REPLICATING, .NOT_PREPARED, .ok, none, false⟩ evs ≤ 1 :=
  C1_apply_dispatched_exactly_once
    ⟨.REPLICATING, .NOT_PREPARED, .ok, none, false⟩ ⟨.ok⟩ ⟨2, 5⟩
    rfl rfl rfl rfl

/-- C2: `replication_state` only ever advances along NOT_REPLICATING →
REPLICATING → (REPLICATED or REPLICATION_FAILED): no single driver step
and no run of driver steps moves it from a later stage back to an earlier
one, so no execution observes a later stage followed by an earlier
one. -/
theorem C2_replication_state_monotone :
    (∀ (s : DriverState) (e : Event),
      ReplicationState.le s.replication_state
        (step s e).1.replication_state = true) ∧
    (∀ (s : DriverState) (evs : List Event),
      ReplicationState.le s.replication_state
        (run s evs).replication_state = true) :=
  ⟨fun s e => step_mono s e, fun s evs => run_mono evs s⟩

/-- C3: failure routing respects the replication-success boundary: a
synchronous submission failure and a prepare/start failure — the failures
that occur before replication succeeds — surface through the Operation's
normal result callback as a failed result, while a failure discovered at
or after the replication-success boundary (the apply/write-log stage,
reached only in the REPLICATED stage) is routed to immediate
non-recoverable termination of the process, never a soft error return. -/
theorem C3_failure_routing_boundary (s : DriverState) (op : Operation)
    (code : Nat)
    (hns : s.replication_state = .NOT_REPLICATING)
    (hop : op.prepareResult = .error code) :
    (SetReplicationFailed s (.error code)).action =
        some FailureAction.callbackFailedResult ∧
    (PrepareAndStartTask s op).2 =
        some FailureAction.callbackFailedResult ∧
    ∀ a l : Status, (a.isOk && l.isOk) = false →
      (ApplyTask s a l).2 = some FailureAction.fatalTermination := by
  refine ⟨?_, ?_, fun a l h => ?_⟩
  · simp [SetReplicationFailed, HandleFailure, hns]
  · simp [PrepareAndStartTask, PrepareAndStart, HandleFailure,
      Status.isOk, hop]
  · simp [ApplyTask, HandleFailure, h]

/-- Witness for C3 at a concrete leader-origin state. -/
theorem C3_witness :
    (SetReplicationFailed ⟨.NOT_REPLICATING, .NOT_PREPARED, .ok, none, false⟩
        (.error 4)).action = some FailureAction.callbackFailedResult ∧
    (PrepareAndStartTask ⟨.NOT_REPLICATING, .NOT_PREPARED, .ok, none, false⟩
        ⟨.error 4⟩).2 = some FailureAction.callbackFailedResult ∧
    ∀ a l : Status, (a.isOk && l.isOk) = false →
      (ApplyTask ⟨.NOT_REPLICATING, .NOT_PREPARED, .ok, none, false⟩ a l).2 =
        some FailureAction.fatalTermination :=
  C3_failure_routing_boundary
    ⟨.NOT_REPLICATING, .NOT_PREPARED, .ok, none, false⟩ ⟨.error 4⟩ 4 rfl rfl

/-- C4: an asynchronous error reported by the Replication Engine through
`replication_finished` is treated as unrecoverable: the driver records
REPLICATION_FAILED and escalates to an abrupt, unrecoverable process stop
(fatal termination), not a normal error result to the caller, and no
apply is submitted from that call. -/
theorem C4_async_replication_error_fatal (s : DriverState) (code : Nat)
    (id : OpId)
    (hrep : s.replication_state = .REPLICATING) :
    (ReplicationFinished s (.error code) id).action =
        some FailureAction.fatalTermination ∧
    (ReplicationFinished s (.error code) id).action ≠
        some FailureAction.callbackFailedResult ∧
    (ReplicationFinished s (.error code) id).state.replication_state =
        .REPLICATION_FAILED ∧
    (ReplicationFinished s (.error code) id).applySubmitted = false := by
  simp [ReplicationFinished, Status.isOk, HandleFailure, hrep]

/-- Witness for C4 at a concrete replicating state. -/
theorem C4_witness :
    (ReplicationFinished ⟨.REPLICATING, .PREPARED, .ok, none, false⟩
        (.error 7) ⟨1, 1⟩).action = some FailureAction.fatalTermination ∧
    (ReplicationFinished ⟨.REPLICATING, .PREPARED, .ok, none, false⟩
        (.error 7) ⟨1, 1⟩).action ≠
        some FailureAction.callbackFailedResult ∧
    (ReplicationFinished ⟨.REPLICATING, .PREPARED, .ok, none, false⟩
        (.error 7) ⟨1, 1⟩).state.replication_state = .REPLICATION_FAILED ∧
    (ReplicationFinished ⟨.REPLICATING, .PREPARED, .ok, none, false⟩
        (.error 7) ⟨1, 1⟩).applySubmitted = false :=
  C4_async_replication_error_fatal
    ⟨.REPLICATING, .PREPARED, .ok, none, false⟩ 7 ⟨1, 1⟩ rfl

/-- C5: `replication_finished(status)` on an error status records
REPLICATION_FAILED plus the terminal status, routes to failure handling
with the replication-failure kind and never triggers apply from that
call; on an OK status it records REPLICATED and the op_id, and triggers
apply if and only if `prepare_state == PREPARED` at that moment,
deferring otherwise to the still-running `prepare_and_start`. -/
theorem C5_replication_finished_behaviour (s : DriverState) (id : OpId)
    (code : Nat)
    (hrep : s.replication_state = .REPLICATING)
    (hflag : s.apply_dispatched = false) :
    ((ReplicationFinished s (.error code) id).state.replication_state =
        .REPLICATION_FAILED ∧
      (ReplicationFinished s (.error code) id).state.operation_status =
        .error code ∧
      (ReplicationFinished s (.error code) id).action =
        some (HandleFailure FailureKind.replication) ∧
      (ReplicationFinished s (.error code) id).applySubmitted = false) ∧
    ((ReplicationFinished s .ok id).state.replication_state =
        .REPLICATED ∧
      (ReplicationFinished s .ok id).state.op_id_copy = some id ∧
      ((ReplicationFinished s .ok id).applySubmitted = true ↔
        s.prepare_state = .PREPARED)) := by
  by_cases hp : s.prepare_state = .PREPARED <;>
    simp [ReplicationFinished, ApplyAsync, Status.isOk, hrep, hflag, hp]

/-- Witness for C5 at a concrete replicating, already-prepared state. -/
theorem C5_witness :
    ((ReplicationFinished ⟨.REPLICATING, .PREPARED, .ok, none, false⟩
        (.error 3) ⟨4, 9⟩).state.replication_state = .REPLICATION_FAILED ∧
      (ReplicationFinished ⟨.REPLICATING, .PREPARED, .ok, none, false⟩
        (.error 3) ⟨4, 9⟩).state.operation_status = .error 3 ∧
      (ReplicationFinished ⟨.REPLICATING, .PREPARED, .ok, none, false⟩
        (.error 3) ⟨4, 9⟩).action =
        some (HandleFailure FailureKind.replication) ∧
      (ReplicationFinished ⟨.REPLICATING, .PREPARED, .ok, none, false⟩
        (.error 3) ⟨4, 9⟩).applySubmitted = false) ∧
    ((ReplicationFinished ⟨.REPLICATING, .PREPARED, .ok, none, false⟩
        .ok ⟨4, 9⟩).state.replication_state = .REPLICATED ∧
      (ReplicationFinished ⟨.REPLICATING, .PREPARED, .ok, none, false⟩
        .ok ⟨4, 9⟩).state.op_id_copy = some ⟨4, 9⟩ ∧
      ((ReplicationFinished ⟨.REPLICATING, .PREPARED, .ok, none, false⟩
        .ok ⟨4, 9⟩).applySubmitted = true ↔
        (⟨.REPLICATING, .PREPARED, .ok, none, false⟩ : DriverState).prepare_state = .PREPARED)) :=
  C5_replication_finished_behaviour
    ⟨.REPLICATING, .PREPARED, .ok, none, false⟩ ⟨4, 9⟩ 3 rfl rfl

/-- C6: a successful `prepare_and_start` calls `Operation.prepare()` and
then `Operation.start()`, sets `prepare_state = PREPARED`, leaves
`replication_state` untouched — in particular it never moves it to
REPLICATING itself, i.e. on the leader path it does not submit to the
Replication Engine (that is the Batching Dispatcher's job) — and it
triggers apply there and then if and only if it observes, under the state
lock, that `replication_state` is already REPLICATED. -/
theorem C6_prepare_and_start (s : DriverState) (op : Operation)
    (hok : op.prepareResult = .ok)
    (hflag : s.apply_dispatched = false) :
    (PrepareAndStart s op).calls = [OpCall.prepare, OpCall.start] ∧
    (PrepareAndStart s op).state.prepare_state = .PREPARED ∧
    (PrepareAndStart s op).state.replication_state =
        s.replication_state ∧
    ((PrepareAndStart s op).applySubmitted = true ↔
      s.replication_state = .REPLICATED) := by
  by_cases hr : s.replication_state = .REPLICATED <;>
    simp [PrepareAndStart, ApplyAsync, Status.isOk, hok, hflag, hr]

/-- Witness for C6 at a concrete state in which replication has already
completed. -/
theorem C6_witness :
    (PrepareAndStart ⟨.REPLICATED, .NOT_PREPARED, .ok, some ⟨1, 3⟩, false⟩
        ⟨.ok⟩).calls = [OpCall.prepare, OpCall.start] ∧
    (PrepareAndStart ⟨.REPLICATED, .NOT_PREPARED, .ok, some ⟨1, 3⟩, false⟩
        ⟨.ok⟩).state.prepare_state = .PREPARED ∧
    (PrepareAndStart ⟨.REPLICATED, .NOT_PREPARED, .ok, some ⟨1, 3⟩, false⟩
        ⟨.ok⟩).state.replication_state =
      (⟨.REPLICATED, .NOT_PREPARED, .ok, some ⟨1, 3⟩, false⟩ :
        DriverState).replication_state ∧
    ((PrepareAndStart ⟨.REPLICATED, .NOT_PREPARED, .ok, some ⟨1, 3⟩, false⟩
        ⟨.ok⟩).applySubmitted = true ↔
      (⟨.REPLICATED, .NOT_PREPARED, .ok, some ⟨1, 3⟩, false⟩ :
        DriverState).replication_state = .REPLICATED) :=
  C6_prepare_and_start
    ⟨.REPLICATED, .NOT_PREPARED, .ok, some ⟨1, 3⟩, false⟩ ⟨.ok⟩ rfl rfl

/-- C7: `abort(status)` is advisory: it records the requested failure
status only if no terminal status exists yet (otherwise it is a no-op),
it changes no other field of the driver — it cannot interrupt a running
stage, which sees the status only at its next checkpoint — and once the
driver is in the REPLICATED (and prepared) stage an abort does not
prevent the apply dispatch nor the apply/finalize steps from completing
normally. -/
theorem C7_abort_advisory (s : DriverState) (st : Status)
    (hrep : s.replication_state = .REPLICATED)
    (hprep : s.prepare_state = .PREPARED)
    (hflag : s.apply_dispatched = false) :
    ((s.operation_status = Status.ok →
        (Abort s st).operation_status = st) ∧
      (s.operation_status ≠ Status.ok → Abort s st = s)) ∧
    ((Abort s st).replication_state = s.replication_state ∧
      (Abort s st).prepare_state = s.prepare_state ∧
      (Abort s st).op_id_copy = s.op_id_copy ∧
      (Abort s st).apply_dispatched = s.apply_dispatched) ∧
    ((ApplyAsync (Abort s st)).2 = true ∧
      (ApplyTask (ApplyAsync (Abort s st)).1 Status.ok Status.ok).2 =
        none) := by
  by_cases hs : s.operation_status = .ok <;>
    simp [Abort, ApplyAsync, ApplyTask, Status.isOk, hrep, hprep, hflag, hs]

/-- Witness for C7: an abort arriving in the REPLICATED stage. -/
theorem C7_witness :
    (((⟨.REPLICATED, .PREPARED, .ok, some ⟨1, 4⟩, false⟩ :
          DriverState).operation_status = Status.ok →
        (Abort ⟨.REPLICATED, .PREPARED, .ok, some ⟨1, 4⟩, false⟩
          (.error 9)).operation_status = .error 9) ∧
      ((⟨.REPLICATED, .PREPARED, .ok, some ⟨1, 4⟩, false⟩ :
          DriverState).operation_status ≠ Status.ok →
        Abort ⟨.REPLICATED, .PREPARED, .ok, some ⟨1, 4⟩, false⟩
          (.error 9) =
          ⟨.REPLICATED, .PREPARED, .ok, some ⟨1, 4⟩, false⟩)) ∧
    ((Abort ⟨.REPLICATED, .PREPARED, .ok, some ⟨1, 4⟩, false⟩
        (.error 9)).replication_state =
      (⟨.REPLICATED, .PREPARED, .ok, some ⟨1, 4⟩, false⟩ :
        DriverState).replication_state ∧
      (Abort ⟨.REPLICATED, .PREPARED, .ok, some ⟨1, 4⟩, false⟩
        (.error 9)).prepare_state =
      (⟨.REPLICATED, .PREPARED, .ok, some ⟨1, 4⟩, false⟩ :
        DriverState).prepare_state ∧
      (Abort ⟨.REPLICATED, .PREPARED, .ok, some ⟨1, 4⟩, false⟩
        (.error 9)).op_id_copy =
      (⟨.REPLICATED, .PREPARED, .ok, some ⟨1, 4⟩, false⟩ :
        DriverState).op_id_copy ∧
      (Abort ⟨.REPLICATED, .PREPARED, .ok, some ⟨1, 4⟩, false⟩
        (.error 9)).apply_dispatched =
      (⟨.REPLICATED, .PREPARED, .ok, some ⟨1, 4⟩, false⟩ :
        DriverState).apply_dispatched) ∧
    ((ApplyAsync (Abort ⟨.REPLICATED, .PREPARED, .ok, some ⟨1, 4⟩, false⟩
        (.error 9))).2 = true ∧
      (ApplyTask (ApplyAsync
          (Abort ⟨.REPLICATED, .PREPARED, .ok, some ⟨1, 4⟩, false⟩
            (.error 9))).1 Status.ok Status.ok).2 = none) :=
  C7_abort_advisory ⟨.REPLICATED, .PREPARED, .ok, some ⟨1, 4⟩, false⟩
    (.error 9) rfl rfl rfl

/-- C8: `get_op_id()` reads only the driver's `op_id_copy_` (the field
guarded by the dedicated `opid_lock_`, not the state lock): its value is
determined by that single field; it returns the explicit unassigned
marker for any call made before an OpId has been assigned (in particular
on a freshly initialized driver of either origin); and once it returns an
assigned OpId, every later read along any continuation of the run
returns that same OpId. -/
theorem C8_get_op_id :
    (∀ s t : DriverState,
      s.op_id_copy = t.op_id_copy → GetOpId s = GetOpId t) ∧
    (∀ origin : DriverType, GetOpId (Init origin) = none) ∧
    (∀ (origin : DriverType) (evs evs' : List Event) (x : OpId),
      GetOpId (run (Init origin) evs) = some x →
      GetOpId (run (Init origin) (evs ++ evs')) = some x) := by
  refine ⟨fun s t h => h, fun origin => rfl, ?_⟩
  intro origin evs evs' x hx
  have hrep : (run (Init origin) evs).replication_state = .REPLICATED := by
    refine run_opid_inv evs (Init origin) (fun h => absurd rfl h) ?_
    rw [show (run (Init origin) evs).op_id_copy = some x from hx]
    exact Option.noConfusion
  rw [run_append]
  exact ((run_opid_frozen evs' (run (Init origin) evs) hrep).1).trans hx

/-- Witness for C8: on a follower driver the OpId assigned by the
successful replication callback survives a later abort request. -/
theorem C8_witness :
    GetOpId (run (Init DriverType.REPLICA)
        ([.replFinished .ok ⟨3, 7⟩] ++ [.abortReq (.error 1)])) =
      some ⟨3, 7⟩ :=
  C8_get_op_id.2.2 DriverType.REPLICA [.replFinished .ok ⟨3, 7⟩]
    [.abortReq (.error 1)] ⟨3, 7⟩ (by decide)

/-- C9: a synchronous submission failure (`set_replication_failed` on a
driver that has not started replicating) takes the locally-recoverable
route: the caller receives a failed result through the Operation's
result callback — never fatal process termination — the terminal status
is recorded, no apply is submitted by the call, and no later driver step
ever submits the apply task. -/
theorem C9_submission_failure_recoverable (s : DriverState) (code : Nat)
    (hns : s.replication_state = .NOT_REPLICATING) :
    (SetReplicationFailed s (.error code)).action =
        some FailureAction.callbackFailedResult ∧
    (SetReplicationFailed s (.error code)).action ≠
        some FailureAction.fatalTermination ∧
    (SetReplicationFailed s (.error code)).applySubmitted = false ∧
    (SetReplicationFailed s (.error code)).state.operation_status =
        .error code ∧
    ∀ evs : List Event,
      dispatchCount (SetReplicationFailed s (.error code)).state evs = 0 := by
  have hstate :
      (SetReplicationFailed s (.error code)).state.replication_state =
        .REPLICATION_FAILED := by
    simp [SetReplicationFailed, hns]
  refine ⟨?_, ?_, ?_, ?_,
    fun evs => dispatchCount_eq_zero_of_failed evs _ hstate⟩ <;>
    simp [SetReplicationFailed, HandleFailure, hns]

/-- Witness for C9 at a concrete leader-origin state. -/
theorem C9_witness :
    (SetReplicationFailed
        ⟨.NOT_REPLICATING, .PREPARED, .ok, none, false⟩
        (.error 6)).action = some FailureAction.callbackFailedResult ∧
    (SetReplicationFailed
        ⟨.NOT_REPLICATING, .PREPARED, .ok, none, false⟩
        (.error 6)).action ≠ some FailureAction.fatalTermination ∧
    (SetReplicationFailed
        ⟨.NOT_REPLICATING, .PREPARED, .ok, none, false⟩
        (.error 6)).applySubmitted = false ∧
    (SetReplicationFailed
        ⟨.NOT_REPLICATING, .PREPARED, .ok, none, false⟩
        (.error 6)).state.operation_status = .error 6 ∧
    ∀ evs : List Event,
      dispatchCount (SetReplicationFailed
        ⟨.NOT_REPLICATING, .PREPARED, .ok, none, false⟩
        (.error 6)).state evs = 0 :=
  C9_submission_failure_recoverable
    ⟨.NOT_REPLICATING, .PREPARED, .ok, none, false⟩ 6 rfl

/-- C10: `is_leader_side()` returns true exactly when the lock-protected
check observes `replication_state == NOT_REPLICATING`; consequently a
leader-origin driver that has stopped reporting as leader-side (its state
advanced past NOT_REPLICATING) never reports as leader-side again, and a
follower-origin driver — initialized in REPLICATING — never reports as
leader-side at any point of any run. -/
theorem C10_is_leader_side_iff :
    (∀ s : DriverState,
      is_leader_side s = true ↔
        s.replication_state = ReplicationState.NOT_REPLICATING) ∧
    (∀ evs evs' : List Event,
      is_leader_side (run (Init DriverType.LEADER) evs) = false →
      is_leader_side (run (Init DriverType.LEADER) (evs ++ evs')) =
        false) ∧
    (∀ evs : List Event,
      is_leader_side (run (Init DriverType.REPLICA) evs) = false) := by
  have hiff : ∀ s : DriverState,
      is_leader_side s = true ↔
        s.replication_state = ReplicationState.NOT_REPLICATING :=
    fun s => by simp [is_leader_side]
  have hfalse : ∀ s : DriverState,
      is_leader_side s = false ↔
        s.replication_state ≠ ReplicationState.NOT_REPLICATING :=
    fun s => by simp [is_leader_side]
  refine ⟨hiff, fun evs evs' h => ?_, fun evs => ?_⟩
  · rw [hfalse] at h ⊢
    rw [run_append]
    exact ReplicationState.le_of_ne_not_replicating _ _ h
      (run_mono evs' (run (Init DriverType.LEADER) evs))
  · rw [hfalse]
    exact ReplicationState.le_of_ne_not_replicating
      ReplicationState.REPLICATING _
      (fun h => ReplicationState.noConfusion h)
      (run_mono evs (Init DriverType.REPLICA))

/-- Witness for C10: concrete runs of a leader-origin and a
follower-origin driver. -/
theorem C10_witness :
    (is_leader_side
        ⟨.NOT_REPLICATING, .NOT_PREPARED, .ok, none, false⟩ = true ↔
      (⟨.NOT_REPLICATING, .NOT_PREPARED, .ok, none, false⟩ :
        DriverState).replication_state =
        ReplicationState.NOT_REPLICATING) ∧
    (is_leader_side
        (run (Init DriverType.LEADER) [.consensusAppend]) = false →
      is_leader_side (run (Init DriverType.LEADER)
        ([.consensusAppend] ++ [.replFinished .ok ⟨1, 1⟩])) = false) ∧
    is_leader_side
      (run (Init DriverType.REPLICA) [.replFinished .ok ⟨1, 1⟩]) =
        false :=
  ⟨C10_is_leader_side_iff.1 _,
    C10_is_leader_side_iff.2.1 [.consensusAppend]
      [.replFinished .ok ⟨1, 1⟩],
    C10_is_leader_side_iff.2.2 [.replFinished .ok ⟨1, 1⟩]⟩

end YB.Tablet
